import Mathlib

/-!
Verification of the photo-transformation relay of the
`maasikas-2000s-photo-flashback` repository.

The embedded components are:
* the base64 encoding used by the Encoder (`encB64` / `decB64`),
* the Encoder `fileToBase64` (from `App.tsx`),
* the Relay Client `transformImage` (from `services/geminiService.ts`),
* the Relay Service `handler` (the Netlify function).
-/

/-! ## Base64 encoding (the Encoder's text-safe encoding) -/

/-- Modelled from the spec: the Encoder's "losslessly text-safe encoding" is the
browser's base64 data-URL encoding (`FileReader.readAsDataURL`), which is not
part of the repository source.  This is the standard base64 alphabet. -/
def b64Alphabet : List Char :=
  "ABCDEFGHIJKLMNOPQRSTUVWXYZabcdefghijklmnopqrstuvwxyz0123456789+/".data

/-- Modelled from the spec: sextet-to-character table of base64. -/
def b64Char (n : Nat) : Char :=
  b64Alphabet.getD n 'A'

/-- Modelled from the spec: character-to-sextet table of base64 (the inverse
direction used when decoding). -/
def b64Index (ch : Char) : Nat :=
  b64Alphabet.indexOf ch

/-- Modelled from the spec: base64 encoding of a byte sequence (bytes are
naturals below 256), three bytes to four characters, with `=` padding. -/
def encB64 : List Nat → List Char
  | [] => []
  | [a] => [b64Char (a / 4), b64Char (a % 4 * 16), '=', '=']
  | [a, b] => [b64Char (a / 4), b64Char (a % 4 * 16 + b / 16), b64Char (b % 16 * 4), '=']
  | a :: b :: c :: rest =>
      b64Char (a / 4) :: b64Char (a % 4 * 16 + b / 16) ::
      b64Char (b % 16 * 4 + c / 64) :: b64Char (c % 64) :: encB64 rest

/-- Modelled from the spec: base64 decoding, the Encoder's inverse. -/
def decB64 : List Char → List Nat
  | c0 :: c1 :: c2 :: c3 :: rest =>
      if c2 = '=' then
        [b64Index c0 * 4 + b64Index c1 / 16]
      else if c3 = '=' then
        [b64Index c0 * 4 + b64Index c1 / 16,
         b64Index c1 % 16 * 16 + b64Index c2 / 4]
      else
        (b64Index c0 * 4 + b64Index c1 / 16) ::
        (b64Index c1 % 16 * 16 + b64Index c2 / 4) ::
        (b64Index c2 % 4 * 64 + b64Index c3) ::
        decB64 rest
  | _ => []

theorem b64Index_b64Char_fin : ∀ s : Fin 64, b64Index (b64Char s.val) = s.val := by
  decide

theorem b64Index_b64Char (n : Nat) (h : n < 64) : b64Index (b64Char n) = n :=
  b64Index_b64Char_fin ⟨n, h⟩

theorem b64Char_mem (n : Nat) : b64Char n ∈ b64Alphabet := by
  unfold b64Char List.getD
  cases h : b64Alphabet.get? n with
  | none => simpa using (by decide : 'A' ∈ b64Alphabet)
  | some c => simpa using List.get?_mem h

theorem b64Char_ne_pad (n : Nat) : b64Char n ≠ '=' := by
  intro hEq
  have hmem := b64Char_mem n
  rw [hEq] at hmem
  exact absurd hmem (by decide)

theorem encB64_chars : ∀ bs : List Nat, ∀ ch ∈ encB64 bs, ch ∈ b64Alphabet ∨ ch = '='
  | [], ch, hch => by simp [encB64] at hch
  | [a], ch, hch => by
      simp only [encB64, List.mem_cons, List.not_mem_nil, or_false] at hch
      rcases hch with h | h | h | h
      · exact Or.inl (h ▸ b64Char_mem _)
      · exact Or.inl (h ▸ b64Char_mem _)
      · exact Or.inr h
      · exact Or.inr h
  | [a, b], ch, hch => by
      simp only [encB64, List.mem_cons, List.not_mem_nil, or_false] at hch
      rcases hch with h | h | h | h
      · exact Or.inl (h ▸ b64Char_mem _)
      · exact Or.inl (h ▸ b64Char_mem _)
      · exact Or.inl (h ▸ b64Char_mem _)
      · exact Or.inr h
  | a :: b :: c :: rest, ch, hch => by
      simp only [encB64, List.mem_cons] at hch
      rcases hch with h | h | h | h | h
      · exact Or.inl (h ▸ b64Char_mem _)
      · exact Or.inl (h ▸ b64Char_mem _)
      · exact Or.inl (h ▸ b64Char_mem _)
      · exact Or.inl (h ▸ b64Char_mem _)
      · exact encB64_chars rest ch h

theorem comma_not_mem_encB64 (bs : List Nat) : ',' ∉ encB64 bs := by
  intro hmem
  rcases encB64_chars bs ',' hmem with h | h
  · exact absurd h (by decide)
  · exact absurd h (by decide)

theorem encB64_ne_nil : ∀ bs : List Nat, bs ≠ [] → encB64 bs ≠ []
  | [], h => absurd rfl h
  | [_], _ => by simp [encB64]
  | [_, _], _ => by simp [encB64]
  | _ :: _ :: _ :: _, _ => by simp [encB64]

theorem decB64_encB64 : ∀ bs : List Nat, (∀ x ∈ bs, x < 256) → decB64 (encB64 bs) = bs
  | [], _ => rfl
  | [a], h => by
      have ha : a < 256 := h a (by simp)
      have h0 : a / 4 < 64 := by omega
      have h1 : a % 4 * 16 < 64 := by omega
      simp [encB64, decB64, b64Index_b64Char _ h0, b64Index_b64Char _ h1]
      omega
  | [a, b], h => by
      have ha : a < 256 := h a (by simp)
      have hb : b < 256 := h b (by simp)
      have h0 : a / 4 < 64 := by omega
      have h1 : a % 4 * 16 + b / 16 < 64 := by omega
      have h2 : b % 16 * 4 < 64 := by omega
      simp [encB64, decB64, b64Char_ne_pad,
        b64Index_b64Char _ h0, b64Index_b64Char _ h1, b64Index_b64Char _ h2]
      constructor
      · omega
      · omega
  | a :: b :: c :: rest, h => by
      have ha : a < 256 := h a (by simp)
      have hb : b < 256 := h b (by simp)
      have hc : c < 256 := h c (by simp)
      have ih := decB64_encB64 rest (fun x hx => h x (by simp [hx]))
      have h0 : a / 4 < 64 := by omega
      have h1 : a % 4 * 16 + b / 16 < 64 := by omega
      have h2 : b % 16 * 4 + c / 64 < 64 := by omega
      have h3 : c % 64 < 64 := by omega
      simp [encB64, decB64, b64Char_ne_pad, b64Index_b64Char _ h0, b64Index_b64Char _ h1,
        b64Index_b64Char _ h2, b64Index_b64Char _ h3, ih]
      refine ⟨by omega, by omega, by omega⟩

/-! ## The Encoder: `fileToBase64` from `App.tsx`

JavaScript strings are embedded as `List Char`; `jsSplit` is
`String.prototype.split` with a single-character separator. -/

/-- JavaScript `str.split(sep)` for a one-character separator: always returns a
non-empty list of fragments. -/
def jsSplit (sep : Char) : List Char → List (List Char)
  | [] => [[]]
  | x :: xs =>
      let rest := jsSplit sep xs
      if x = sep then [] :: rest
      else
        match rest with
        | r :: rs => (x :: r) :: rs
        | [] => [[x]]

theorem jsSplit_ne_nil (sep : Char) : ∀ l : List Char, jsSplit sep l ≠ []
  | [] => by simp [jsSplit]
  | x :: xs => by
      simp only [jsSplit]
      cases hrest : jsSplit sep xs with
      | nil => by_cases hx : x = sep <;> simp [hx, hrest]
      | cons r rs => by_cases hx : x = sep <;> simp [hx, hrest]

theorem jsSplit_not_mem (sep : Char) : ∀ l : List Char, sep ∉ l → jsSplit sep l = [l]
  | [], _ => rfl
  | x :: xs, h => by
      have hx : x ≠ sep := fun hEq => h (hEq ▸ List.mem_cons_self x xs)
      have hxs : sep ∉ xs := fun hmem => h (List.mem_cons_of_mem x hmem)
      simp only [jsSplit, jsSplit_not_mem sep xs hxs, if_neg hx]

theorem jsSplit_append (sep : Char) :
    ∀ A B : List Char, sep ∉ A → jsSplit sep (A ++ sep :: B) = A :: jsSplit sep B
  | [], B, _ => by simp [jsSplit]
  | a :: A, B, h => by
      have hx : a ≠ sep := fun hEq => h (hEq ▸ List.mem_cons_self a A)
      have hA : sep ∉ A := fun hmem => h (List.mem_cons_of_mem a hmem)
      have ih := jsSplit_append sep A B hA
      simp only [List.cons_append, jsSplit, if_neg hx, List.append_eq]
      rw [ih]

/-- The `{ base64, mimeType }` record resolved by `fileToBase64`
(the spec's ImagePayload). -/
structure ImagePayload where
  base64 : List Char
  mimeType : List Char
deriving DecidableEq

/-- Outcome of the `FileReader` read: `onload` fires with `reader.result`, or
`onerror` fires with an error value. -/
inductive ReadOutcome
  | loaded (result : List Char)
  | readError (e : List Char)
deriving DecidableEq

/-- How the promise returned by `fileToBase64` settles.  `stuck` is the path
where the `onload` callback throws before calling `resolve` or `reject`
(`mimePart.split(1:1)` below on a metadata part without a colon), so the
promise never settles. -/
inductive EncodeResult
  | resolved (payload : ImagePayload)
  | rejected (errMsg : List Char)
  | stuck
deriving DecidableEq

def invalidFileFormatMsg : List Char := "Invalid file format".data

/-- The Encoder `fileToBase64` of `App.tsx`, as a function of the outcome of
the one `FileReader` read.  On load it splits the result at commas into
mimePart and base64Part, rejects with an invalid-file-format error when either
is missing or empty, and otherwise resolves the payload whose mimeType is
mimePart split at colons, component 1, split at semicolons, component 0.
Destructuring yields an undefined base64Part when the split has one fragment;
indexing component 1 of a colon-free mimePart throws inside the callback, so
the promise never settles, which is the `stuck` outcome. -/
def fileToBase64 (read : ReadOutcome) : EncodeResult :=
  match read with
  | .readError e => .rejected e
  | .loaded result =>
      let parts := jsSplit ',' result
      let mimePart := parts.headD []
      match parts.get? 1 with
      | none => .rejected invalidFileFormatMsg
      | some base64Part =>
          if mimePart = [] ∨ base64Part = [] then .rejected invalidFileFormatMsg
          else
            match (jsSplit ':' mimePart).get? 1 with
            | none => .stuck
            | some seg => .resolved ⟨base64Part, (jsSplit ';' seg).headD []⟩

/-- Modelled from the spec: the data URL produced by the platform reader
(`FileReader.readAsDataURL`, not repository code) for a file with declared
media type `fileType` and content `bytes`. -/
def dataUrl (fileType : List Char) (bytes : List Nat) : List Char :=
  "data:".data ++ fileType ++ ";base64,".data ++ encB64 bytes

/-! ## The Relay Client: `transformImage` from `services/geminiService.ts` -/

/-- The JSON body of a relay response as consumed by the client: an optional
error field and an optional transformedBase64 field. -/
structure ServerJson where
  error : Option String
  transformedBase64 : Option String
deriving DecidableEq

/-- A settled `fetch` response: `ok` flag, numeric `status`, and the outcome of
`response.json()` (a parse failure carries the engine's error message). -/
structure FetchResponse where
  ok : Bool
  status : Nat
  jsonResult : Except String ServerJson

/-- How the `fetch` call settles: a response, a rejection with an `Error`
carrying a message, or a rejection with a non-`Error` value. -/
inductive FetchOutcome
  | response (r : FetchResponse)
  | thrownError (msg : String)
  | thrownNonError

/-- Result of a `transformImage` call: the resolved string, the resolved
`null`, or a thrown `Error` with its message. -/
inductive TransformResult
  | image (base64 : String)
  | nullResult
  | thrown (msg : String)
deriving DecidableEq

def serverStatusMsg (status : Nat) : String :=
  "Server responded with status: " ++ toString status

def parseFallbackMsg : String := "Failed to process the transformation on the server."

def unknownErrorMsg : String := "An unknown error occurred during image transformation."

/-- The Relay Client `transformImage`: posts the image and style to the relay
endpoint and interprets the outcome of that one `fetch`.  The three request
arguments are serialized into the request body and do not influence the
interpretation of the response; the catch block rethrows the message of any
`Error` and substitutes `unknownErrorMsg` for a non-`Error` value. -/
def transformImage (base64ImageData mimeType style : String)
    (outcome : FetchOutcome) : TransformResult :=
  match outcome with
  | .thrownNonError => .thrown unknownErrorMsg
  | .thrownError msg => .thrown msg
  | .response r =>
      if r.ok = false then
        let errorData : ServerJson :=
          match r.jsonResult with
          | .ok j => j
          | .error _ => ⟨some parseFallbackMsg, none⟩
        match errorData.error with
        | some e => if e ≠ "" then .thrown e else .thrown (serverStatusMsg r.status)
        | none => .thrown (serverStatusMsg r.status)
      else
        match r.jsonResult with
        | .error parseMsg => .thrown parseMsg
        | .ok result =>
            match result.transformedBase64 with
            | some s => if s ≠ "" then .image s else .nullResult
            | none => .nullResult

/-! ## The Relay Service: the Netlify function `handler` -/

def LOFI_PROMPT : String :=
  "Transform this photo to look like it was taken at a party or social event between 2002-2005 with a typical consumer point-and-shoot digital camera. The aesthetic is \"2000s Nightlife Throwback\" - think authentic, not overly polished.\n\nKey transformations to apply:\n1.  **Simulate On-Camera Flash:** Re-light the image to mimic a direct, on-camera flash. This should create bright, slightly blown-out highlights on the foreground subject (especially faces) and cause the background to appear darker with some vignetting, as if it were a poorly lit room. Avoid making the shadows completely black; some background detail should remain visible.\n2.  **Authentic Color Shift:** Adjust the colors to match early digital sensors. This includes slightly boosting saturation and adding a subtle cool tint (blue or magenta), particularly in the mid-tones and shadows.\n3.  **Low-Resolution Feel:** Introduce a moderate amount of digital noise/grain and a slight overall softness to the image to replicate a low-megapixel sensor.\n4.  **Date Stamp:** Add a classic yellow or orange digital date stamp in the bottom-right corner. Use a common font from that era. The format should be like \u002704 11 18\u0027 (YY MM DD). Use a random date between 2003 and 2005.\n5.  **Watermark Logo:** In the bottom-left corner, add a small, semi-transparent watermark logo. The logo should be text-based, saying \u00272000s FLASHBACK\u0027 in a clean, futuristic, sans-serif font (similar to Orbitron or other digital-style fonts). The word \u0027FLASH\u0027 should be a different, vibrant color like neon pink or cyan. The rest of the text should be white.\n\nThe transformation should be noticeable and stylistic, but it must respect the original subject and composition. The final image should look like a plausible photograph from that time, not an extreme special effect."

def CUTOUT_PROMPT : String :=
  "Create a fun, \"paper cutout\" or scrapbook-style image from the provided photo. The aesthetic is a playful and chaotic 2000s throwback.\n\nKey transformations to apply:\n1.  **Isolate and Style Subject:** Identify the main subject(s) in the photo. Create a \"cutout\" of them with a distinct, slightly uneven white border, as if they were cut out with scissors.\n2.  **Create Artboard Background:** Place the subject cutout onto a simple, flat, colored artboard background. The color should be vibrant and reminiscent of the era, like pastel pink, electric blue, or lime green.\n3.  **Add a Random Mix of Themed Objects:** From the extensive list below, randomly select 3 to 5 different objects to generate as small paper cutouts. Scatter them around the main subject. These objects must also have white \"cutout\" borders.\n    **Iconic 2000s Object List:**\n    - A flip phone (like a Motorola RAZR or a Nokia)\n    - A blank CD-R with \"Mix Tape\" handwritten on it\n    - An energy drink can (like Red Bull)\n    - An early iPod model with a click wheel\n    - A disposable camera\n    - A digital pet on a keychain (like a Tamagotchi)\n    - A Blockbuster video rental case\n    - A portable CD player (Discman)\n    - A floppy disk\n    - Y2K-style sunglasses (like shield sunglasses)\n    - Butterfly hair clips\n    - A chunky CRT computer monitor displaying a classic instant messenger window\n    - Bubble graffiti text saying one of the following: \"OMG!\", \"LOL\", \"BFF\", \"Pwned\", or \"Cool!\".\n4.  **Composition and Shadow:** Arrange all cutouts (the main subject and the randomly selected themed objects) in a dynamic, overlapping, and random-looking composition. Apply a subtle drop shadow to all cutouts to give them a slight 3D effect, making them look like they\u0027re sitting on top of the artboard.\n5.  **Watermark Logo:** Somewhere on the artboard, place a stylized text logo that says \u00272000s FLASHBACK\u0027. The logo should fit the scrapbook theme, perhaps looking like another cutout or a sticker. Use a clean, futuristic font. The word \u0027FLASH\u0027 should be a different, vibrant color like neon pink or cyan to make it pop.\n\nThe final image should be a creative, fun, and unique collage that screams nostalgia for the early 2000s. The randomness of the objects is key to making each creation feel special."


/-- The three fields destructured from the parsed request body; absent fields
are `none`. -/
structure ReqBody where
  base64ImageData : Option String
  mimeType : Option String
  style : Option String
deriving DecidableEq

/-- JavaScript truthiness of a possibly-absent string value. -/
def truthy : Option String → Bool
  | none => false
  | some s => s != ""

/-- The body of a relay response: the 405 branch returns a plain text body,
the error branches serialize an error object, the success branch serializes
an object with the transformedBase64 field. -/
inductive BodyVal
  | text (s : String)
  | errorJson (msg : String)
  | successJson (transformedBase64 : String)
deriving DecidableEq

/-- A relay response: status code, body, and whether the JSON content-type
header was attached (only the 200 branch sets headers). -/
structure HandlerResponse where
  statusCode : Nat
  body : BodyVal
  jsonHeader : Bool
deriving DecidableEq

/-- The arguments of one `generateContent` call issued to the external model. -/
structure ModelCall where
  modelName : String
  imageData : String
  imageMimeType : String
  promptText : String
deriving DecidableEq

/-- An inline-data fragment of a model response part (the code reads only its
`data` field). -/
structure RespInlineData where
  data : String
deriving DecidableEq

/-- One part of the model response: optional inline data and optional text. -/
structure RespPart where
  inlineData : Option RespInlineData
  text : Option String
deriving DecidableEq

/-- How the awaited `generateContent` call turns out: the parts of the first
candidate's content, or a thrown exception with its detail message.  The
thrown case also covers a malformed response object (indexing an absent
candidate throws). -/
inductive ModelOutcome
  | result (parts : List RespPart)
  | thrown (msg : String)
deriving DecidableEq

/-- Observable effects of one handler invocation: whether the body parse was
reached, whether the credential was read, and the external model calls made. -/
structure Effects where
  credentialRead : Bool
  bodyParsed : Bool
  modelCalls : List ModelCall
deriving DecidableEq

/-- The response-mapping loop of the handler: return on the first part whose
`inlineData` is present. -/
def scanParts : List RespPart → Option RespInlineData
  | [] => none
  | p :: rest =>
      match p.inlineData with
      | some d => some d
      | none => scanParts rest

def configErrorMsg : String := "Server configuration error: API key is not set up."

def missingFieldsMsg : String := "Missing required image data or style."

def noImageMsg : String := "The AI model did not return an image. Please try a different photo."

def internalErrorMsg : String := "An internal error occurred while transforming the image."

/-- The Netlify function `handler` (the Relay Service).  Inputs: the request
method; the `API_KEY` environment variable; the outcome of
`JSON.parse(event.body || ...)` (an absent or empty body parses as the empty
object, i.e. a `ReqBody` with three `none` fields; a malformed body is the
`Except.error` case, which the catch block turns into the generic 500); and
the outcome of the external model call.  Returns the response together with
the observable effects. -/
def handler (httpMethod : String) (apiKey : Option String)
    (parsedBody : Except Unit ReqBody) (model : ModelOutcome) :
    HandlerResponse × Effects :=
  if httpMethod ≠ "POST" then
    (⟨405, .text "Method Not Allowed", false⟩, ⟨false, false, []⟩)
  else if truthy apiKey = false then
    (⟨500, .errorJson configErrorMsg, false⟩, ⟨true, false, []⟩)
  else
    match parsedBody with
    | .error _ => (⟨500, .errorJson internalErrorMsg, false⟩, ⟨true, true, []⟩)
    | .ok b =>
        if truthy b.base64ImageData = false ∨ truthy b.mimeType = false ∨
            truthy b.style = false then
          (⟨400, .errorJson missingFieldsMsg, false⟩, ⟨true, true, []⟩)
        else
          let prompt := if b.style = some "lofi" then LOFI_PROMPT else CUTOUT_PROMPT
          let call : ModelCall :=
            ⟨"gemini-2.5-flash-image-preview", b.base64ImageData.getD "",
             b.mimeType.getD "", prompt⟩
          match model with
          | .thrown _ => (⟨500, .errorJson internalErrorMsg, false⟩, ⟨true, true, [call]⟩)
          | .result parts =>
              match scanParts parts with
              | some d => (⟨200, .successJson d.data, true⟩, ⟨true, true, [call]⟩)
              | none => (⟨500, .errorJson noImageMsg, false⟩, ⟨true, true, [call]⟩)

/-! ## Helper lemmas -/

theorem truthy_some (s : String) : truthy (some s) = (s != "") := rfl

theorem serverStatusMsg_ne_empty (status : Nat) : serverStatusMsg status ≠ "" := by
  intro h
  have hd := congrArg String.data h
  rw [serverStatusMsg, String.data_append] at hd
  simp at hd

theorem scanParts_eq_findSome : ∀ parts : List RespPart,
    scanParts parts = parts.findSome? (fun p => p.inlineData)
  | [] => rfl
  | p :: rest => by
      simp only [scanParts, List.findSome?]
      cases p.inlineData <;> simp [scanParts_eq_findSome rest]

/-! ## The claims -/

/-- Claim C9: for every binary blob (a byte sequence), applying the Encoder's
text-safe encoding and then the inverse decoding reproduces the original bytes
exactly. -/
theorem claim9_roundtrip (bytes : List Nat) (h : ∀ x ∈ bytes, x < 256) :
    decB64 (encB64 bytes) = bytes :=
  decB64_encB64 bytes h

theorem claim9_witness : decB64 (encB64 [0, 77, 128, 255, 10]) = [0, 77, 128, 255, 10] :=
  claim9_roundtrip [0, 77, 128, 255, 10] (by decide)

theorem fileToBase64_loaded_eval (result A B D E F : List Char) (G : List (List Char))
    (h : jsSplit ',' result = [A, B]) (hAne : A ≠ []) (hBne : B ≠ [])
    (h2 : jsSplit ':' A = [D, E]) (h3 : jsSplit ';' E = F :: G) :
    fileToBase64 (.loaded result) = .resolved ⟨B, F⟩ := by
  simp only [fileToBase64, h, List.get?, List.headD]
  rw [if_neg ?_]
  · rw [h2]
    simp only [List.get?]
    rw [h3]
  · rintro (hx | hx)
    · exact hAne hx
    · exact hBne hx

/-- Claim C8: if the read fails, or the loaded result lacks the comma
separating metadata from payload, `fileToBase64` rejects (no partial
`ImagePayload` is produced, the result being the rejection alone); and on the
data URL the platform reader produces for a file with a well-formed declared
type, it resolves with the declared type verbatim as `mimeType` and the
encoded bytes as `base64`. -/
theorem claim8_encoder :
    (∀ e, fileToBase64 (.readError e) = .rejected e) ∧
    (∀ result : List Char, ',' ∉ result →
        fileToBase64 (.loaded result) = .rejected invalidFileFormatMsg) ∧
    (∀ (t : List Char) (bytes : List Nat), ',' ∉ t → ':' ∉ t → ';' ∉ t →
        bytes ≠ [] →
        fileToBase64 (.loaded (dataUrl t bytes)) = .resolved ⟨encB64 bytes, t⟩) := by
  refine ⟨fun e => rfl, fun result h => ?_, fun t bytes hc hco hsc hne => ?_⟩
  · simp [fileToBase64, jsSplit_not_mem ',' result h]
  · have hA : ',' ∉ "data:".data ++ (t ++ ";base64".data) := by
      intro hmem
      rcases List.mem_append.mp hmem with h1 | h1
      · exact absurd h1 (by decide)
      · rcases List.mem_append.mp h1 with h2 | h2
        · exact hc h2
        · exact absurd h2 (by decide)
    have hB : ',' ∉ encB64 bytes := comma_not_mem_encB64 bytes
    have h1 : dataUrl t bytes =
        ("data:".data ++ (t ++ ";base64".data)) ++ ',' :: encB64 bytes := by
      simp only [dataUrl, List.append_assoc]
      rfl
    have hAne : "data:".data ++ (t ++ ";base64".data) ≠ [] := by
      intro hnil
      exact List.noConfusion hnil
    have hEnc : encB64 bytes ≠ [] := encB64_ne_nil bytes hne
    have hsplit := jsSplit_append ',' ("data:".data ++ (t ++ ";base64".data))
      (encB64 bytes) hA
    rw [jsSplit_not_mem ',' (encB64 bytes) hB] at hsplit
    have hmime : "data:".data ++ (t ++ ";base64".data) =
        "data".data ++ ':' :: (t ++ ";base64".data) := rfl
    have hco2 : ':' ∉ "data".data := by decide
    have hcoB : ':' ∉ t ++ ";base64".data := by
      intro hmem
      rcases List.mem_append.mp hmem with h2 | h2
      · exact hco h2
      · exact absurd h2 (by decide)
    have hsplit2 := jsSplit_append ':' "data".data (t ++ ";base64".data) hco2
    rw [jsSplit_not_mem ':' (t ++ ";base64".data) hcoB] at hsplit2
    have hseg : t ++ ";base64".data = t ++ ';' :: "base64".data := rfl
    have hscB : ';' ∉ "base64".data := by decide
    have hsplit3 := jsSplit_append ';' t "base64".data hsc
    rw [jsSplit_not_mem ';' "base64".data hscB] at hsplit3
    exact fileToBase64_loaded_eval (dataUrl t bytes) _ _ _ _ _ _
      (by rw [h1]; exact hsplit) hAne hEnc hsplit2 hsplit3

theorem claim8_witness :
    fileToBase64 (.loaded "garbage".data) = .rejected invalidFileFormatMsg ∧
    fileToBase64 (.loaded (dataUrl "image/png".data [137, 80, 78, 71])) =
      .resolved ⟨encB64 [137, 80, 78, 71], "image/png".data⟩ :=
  ⟨claim8_encoder.2.1 _ (by decide),
   claim8_encoder.2.2 _ _ (by decide) (by decide) (by decide) (by decide)⟩

/-- Claim C2 is false as stated: on a success response whose body carries no
image data, `transformImage` resolves to `null` — it does not raise a
`TransformationError`.  Concretely, an ok response with the empty JSON object
as body yields the null result, which is neither an image nor an error. -/
theorem claim2_counterexample :
    transformImage "img" "image/png" "lofi"
      (.response ⟨true, 200, .ok ⟨none, none⟩⟩) = .nullResult := rfl

/-- Claim C2 as amended: provided every message attached to a thrown `Error`
or a JSON-parse failure is non-empty, a `transformImage` call either returns
a non-empty image payload, or raises exactly one error with a non-empty
message, or — exactly when the response is ok but its body carries no
(or an empty) transformedBase64 field — resolves to null, which the caller
(`App.handleTransform`) converts into the user-facing error.  The three
outcomes are mutually exclusive constructors of `TransformResult`. -/
theorem claim2_amended (base64ImageData mimeType style : String)
    (outcome : FetchOutcome)
    (hthrown : ∀ msg, outcome = .thrownError msg → msg ≠ "")
    (hparse : ∀ r pm, outcome = .response r → r.jsonResult = .error pm → pm ≠ "") :
    (∃ s, transformImage base64ImageData mimeType style outcome = .image s ∧ s ≠ "") ∨
    ((∃ r j, outcome = .response r ∧ r.ok = true ∧ r.jsonResult = .ok j ∧
        (j.transformedBase64 = none ∨ j.transformedBase64 = some "")) ∧
      transformImage base64ImageData mimeType style outcome = .nullResult) ∨
    (∃ m, transformImage base64ImageData mimeType style outcome = .thrown m ∧ m ≠ "") := by
  cases outcome with
  | thrownNonError =>
      refine Or.inr (Or.inr ⟨unknownErrorMsg, rfl, ?_⟩)
      decide
  | thrownError msg =>
      exact Or.inr (Or.inr ⟨msg, rfl, hthrown msg rfl⟩)
  | response r =>
      obtain ⟨ok, status, jsonResult⟩ := r
      cases ok with
      | false =>
          refine Or.inr (Or.inr ?_)
          cases jsonResult with
          | error pm =>
              refine ⟨parseFallbackMsg, ?_, by decide⟩
              simp [transformImage, parseFallbackMsg]
          | ok j =>
              cases hj : j.error with
              | none =>
                  refine ⟨serverStatusMsg status, ?_, serverStatusMsg_ne_empty status⟩
                  simp [transformImage, hj]
              | some e =>
                  by_cases he : e = ""
                  · refine ⟨serverStatusMsg status, ?_, serverStatusMsg_ne_empty status⟩
                    simp [transformImage, hj, he]
                  · refine ⟨e, ?_, he⟩
                    simp [transformImage, hj, he]
      | true =>
          cases jsonResult with
          | error pm =>
              refine Or.inr (Or.inr ⟨pm, ?_, hparse ⟨true, status, .error pm⟩ pm rfl rfl⟩)
              simp [transformImage]
          | ok j =>
              cases hj : j.transformedBase64 with
              | none =>
                  refine Or.inr (Or.inl ⟨⟨⟨true, status, .ok j⟩, j, rfl, rfl, rfl, Or.inl hj⟩, ?_⟩)
                  simp [transformImage, hj]
              | some s =>
                  by_cases hs : s = ""
                  · refine Or.inr (Or.inl ⟨⟨⟨true, status, .ok j⟩, j, rfl, rfl, rfl,
                      Or.inr (hs ▸ hj)⟩, ?_⟩)
                    simp [transformImage, hj, hs]
                  · refine Or.inl ⟨s, ?_, hs⟩
                    simp [transformImage, hj, hs]

theorem claim2_witness :
    (∃ s, transformImage "img" "image/png" "lofi"
        (.response ⟨true, 200, .ok ⟨none, some "OUT"⟩⟩) = .image s ∧ s ≠ "") ∨
    ((∃ r j, FetchOutcome.response ⟨true, 200, .ok ⟨none, some "OUT"⟩⟩ = .response r ∧
        r.ok = true ∧ r.jsonResult = .ok j ∧
        (j.transformedBase64 = none ∨ j.transformedBase64 = some "")) ∧
      transformImage "img" "image/png" "lofi"
        (.response ⟨true, 200, .ok ⟨none, some "OUT"⟩⟩) = .nullResult) ∨
    (∃ m, transformImage "img" "image/png" "lofi"
        (.response ⟨true, 200, .ok ⟨none, some "OUT"⟩⟩) = .thrown m ∧ m ≠ "") :=
  claim2_amended "img" "image/png" "lofi" (.response ⟨true, 200, .ok ⟨none, some "OUT"⟩⟩)
    (fun msg h => FetchOutcome.noConfusion h)
    (fun r pm h1 h2 => by cases h1; exact Except.noConfusion h2)

/-- Claim C1 is false as stated: a POST request whose style field is present
but is neither of the two supported identifiers is not rejected.  With a valid
credential, image data and media type, and style equal to bogus, the handler
returns status 200 (not 400) and the external model is invoked once (call
count one, not zero). -/
theorem claim1_counterexample :
    (handler "POST" (some "key") (.ok ⟨some "AAAA", some "image/png", some "bogus"⟩)
        (.result [⟨some ⟨"OUT"⟩, none⟩])).1.statusCode = 200 ∧
    (handler "POST" (some "key") (.ok ⟨some "AAAA", some "image/png", some "bogus"⟩)
        (.result [⟨some ⟨"OUT"⟩, none⟩])).2.modelCalls.length = 1 :=
  ⟨rfl, rfl⟩

/-- Claim C1 as amended: the Relay Service only validates presence, not
membership in the closed style set.  For every POST request whose body parses
and carries non-empty image data, media type, and a non-empty style that is
not one of the two supported identifiers, the handler does not answer 400:
it invokes the external model exactly once, with the cutout instruction
template. -/
theorem claim1_amended (apiKey b64 mime style : String)
    (hKey : apiKey ≠ "") (hB : b64 ≠ "") (hM : mime ≠ "") (hS : style ≠ "")
    (hNotLofi : style ≠ "lofi") (hNotCutout : style ≠ "cutout")
    (model : ModelOutcome) :
    (handler "POST" (some apiKey) (.ok ⟨some b64, some mime, some style⟩)
        model).1.statusCode ≠ 400 ∧
    (handler "POST" (some apiKey) (.ok ⟨some b64, some mime, some style⟩)
        model).2.modelCalls =
      [⟨"gemini-2.5-flash-image-preview", b64, mime, CUTOUT_PROMPT⟩] := by
  cases model with
  | thrown msg =>
      constructor
      · simp [handler, truthy, hKey, hB, hM, hS]
      · simp [handler, truthy, hKey, hB, hM, hS, hNotLofi]
  | result parts =>
      constructor
      · cases hscan : scanParts parts <;>
          simp [handler, truthy, hKey, hB, hM, hS, hscan]
      · cases hscan : scanParts parts <;>
          simp [handler, truthy, hKey, hB, hM, hS, hNotLofi, hscan]

theorem claim1_witness :
    (handler "POST" (some "key") (.ok ⟨some "AAAA", some "image/png", some "bogus"⟩)
        (.result [⟨some ⟨"OUT"⟩, none⟩])).1.statusCode ≠ 400 ∧
    (handler "POST" (some "key") (.ok ⟨some "AAAA", some "image/png", some "bogus"⟩)
        (.result [⟨some ⟨"OUT"⟩, none⟩])).2.modelCalls =
      [⟨"gemini-2.5-flash-image-preview", "AAAA", "image/png", CUTOUT_PROMPT⟩] :=
  claim1_amended "key" "AAAA" "image/png" "bogus" (by decide) (by decide) (by decide)
    (by decide) (by decide) (by decide) (.result [⟨some ⟨"OUT"⟩, none⟩])

/-- Claim C3: for every sequence of model-response parts on a valid request,
the handler answers 200 with transformedBase64 equal to the inline data of
the first part carrying inline data (`scanParts` is exactly the
first-match search `List.findSome?` over the parts), and when no part
carries inline data it answers 500 with the no-image message, which differs
from the generic transport-failure message. -/
theorem claim3_response_mapping (apiKey b64 mime style : String)
    (hKey : apiKey ≠ "") (hB : b64 ≠ "") (hM : mime ≠ "") (hS : style ≠ "")
    (parts : List RespPart) :
    (∀ d, scanParts parts = some d →
        (handler "POST" (some apiKey) (.ok ⟨some b64, some mime, some style⟩)
            (.result parts)).1 = ⟨200, .successJson d.data, true⟩) ∧
    (scanParts parts = none →
        (handler "POST" (some apiKey) (.ok ⟨some b64, some mime, some style⟩)
            (.result parts)).1 = ⟨500, .errorJson noImageMsg, false⟩) ∧
    scanParts parts = parts.findSome? (fun p => p.inlineData) ∧
    noImageMsg ≠ internalErrorMsg := by
  refine ⟨fun d hscan => ?_, fun hscan => ?_, scanParts_eq_findSome parts, by decide⟩
  · simp [handler, truthy, hKey, hB, hM, hS, hscan]
  · simp [handler, truthy, hKey, hB, hM, hS, hscan]

theorem claim3_witness :
    (∀ d, scanParts [⟨none, some "txt"⟩, ⟨some ⟨"IMG"⟩, none⟩] = some d →
        (handler "POST" (some "key") (.ok ⟨some "AAAA", some "image/png", some "lofi"⟩)
            (.result [⟨none, some "txt"⟩, ⟨some ⟨"IMG"⟩, none⟩])).1 =
          ⟨200, .successJson d.data, true⟩) ∧
    (scanParts [⟨none, some "txt"⟩, ⟨some ⟨"IMG"⟩, none⟩] = none →
        (handler "POST" (some "key") (.ok ⟨some "AAAA", some "image/png", some "lofi"⟩)
            (.result [⟨none, some "txt"⟩, ⟨some ⟨"IMG"⟩, none⟩])).1 =
          ⟨500, .errorJson noImageMsg, false⟩) ∧
    scanParts [⟨none, some "txt"⟩, ⟨some ⟨"IMG"⟩, none⟩] =
      ([⟨none, some "txt"⟩, ⟨some ⟨"IMG"⟩, none⟩] : List RespPart).findSome?
        (fun p => p.inlineData) ∧
    noImageMsg ≠ internalErrorMsg :=
  claim3_response_mapping "key" "AAAA" "image/png" "lofi"
    (by decide) (by decide) (by decide) (by decide)
    [⟨none, some "txt"⟩, ⟨some ⟨"IMG"⟩, none⟩]

/-- Claim C4: with the server-held credential absent, every POST request —
for any two request payloads and model behaviours, valid or invalid — gets
the identical configuration-error response with status 500, and the external
model is never called. -/
theorem claim4_missing_credential (p1 p2 : Except Unit ReqBody) (m1 m2 : ModelOutcome) :
    handler "POST" none p1 m1 = handler "POST" none p2 m2 ∧
    handler "POST" none p1 m1 =
      (⟨500, .errorJson configErrorMsg, false⟩, ⟨true, false, []⟩) :=
  ⟨rfl, rfl⟩

/-- Claim C5: every request whose method is not POST is answered 405
immediately: the body parse is not reached, the credential is not read, and
no model call is made, whatever the credential, body and model would be. -/
theorem claim5_method (httpMethod : String) (h : httpMethod ≠ "POST")
    (apiKey : Option String) (parsedBody : Except Unit ReqBody) (model : ModelOutcome) :
    handler httpMethod apiKey parsedBody model =
      (⟨405, .text "Method Not Allowed", false⟩, ⟨false, false, []⟩) := by
  unfold handler
  rw [if_pos h]

theorem claim5_witness :
    handler "GET" (some "key") (.ok ⟨some "AAAA", some "image/png", some "lofi"⟩)
      (.result []) = (⟨405, .text "Method Not Allowed", false⟩, ⟨false, false, []⟩) :=
  claim5_method "GET" (by decide) (some "key")
    (.ok ⟨some "AAAA", some "image/png", some "lofi"⟩) (.result [])

/-- Claim C6: when the external model call throws, the handler catches the
exception and answers a generic 500 whose body is the fixed constant
`internalErrorMsg`, independent of the exception message — so no internal
exception detail reaches the caller. -/
theorem claim6_exception (apiKey b64 mime style msg : String)
    (hKey : apiKey ≠ "") (hB : b64 ≠ "") (hM : mime ≠ "") (hS : style ≠ "") :
    (handler "POST" (some apiKey) (.ok ⟨some b64, some mime, some style⟩)
        (.thrown msg)).1 = ⟨500, .errorJson internalErrorMsg, false⟩ := by
  simp [handler, truthy, hKey, hB, hM, hS]

theorem claim6_witness :
    (handler "POST" (some "key") (.ok ⟨some "AAAA", some "image/png", some "lofi"⟩)
        (.thrown "quota exceeded: project 12345")).1 =
      ⟨500, .errorJson internalErrorMsg, false⟩ :=
  claim6_exception "key" "AAAA" "image/png" "lofi" "quota exceeded: project 12345"
    (by decide) (by decide) (by decide) (by decide)

/-- Claim C7 is false as stated: a POST body that is not parseable as JSON
does not produce a 400-class validation response — the JSON.parse exception
falls into the generic catch and the handler answers 500. -/
theorem claim7_counterexample :
    (handler "POST" (some "key") (.error ()) (.thrown "x")).1.statusCode = 500 ∧
    (handler "POST" (some "key") (.error ()) (.thrown "x")).1.statusCode ≠ 400 :=
  ⟨rfl, by decide⟩

/-- Claim C7 as amended: with the credential present, a POST body that parses
as JSON but misses image data, media type, or style (absent or empty) gets
the 400 response with the field-level message and no model call; a body that
is not parseable as JSON is handled by the generic catch instead and gets
the 500 internal-error response. -/
theorem claim7_amended (apiKey : String) (hKey : apiKey ≠ "") (model : ModelOutcome) :
    (∀ b : ReqBody,
      truthy b.base64ImageData = false ∨ truthy b.mimeType = false ∨
        truthy b.style = false →
      (handler "POST" (some apiKey) (.ok b) model).1 =
          ⟨400, .errorJson missingFieldsMsg, false⟩ ∧
        (handler "POST" (some apiKey) (.ok b) model).2.modelCalls = []) ∧
    (handler "POST" (some apiKey) (.error ()) model).1 =
      ⟨500, .errorJson internalErrorMsg, false⟩ := by
  constructor
  · intro b hb
    rcases hb with hb | hb | hb <;>
      exact ⟨by simp [handler, truthy_some, hKey, hb], by simp [handler, truthy_some, hKey, hb]⟩
  · simp [handler, truthy_some, hKey]

theorem claim7_witness :
    ((handler "POST" (some "key") (.ok ⟨some "AAAA", none, some "lofi"⟩)
        (.thrown "x")).1 = ⟨400, .errorJson missingFieldsMsg, false⟩ ∧
      (handler "POST" (some "key") (.ok ⟨some "AAAA", none, some "lofi"⟩)
        (.thrown "x")).2.modelCalls = []) ∧
    (handler "POST" (some "key") (.error ()) (.thrown "x")).1 =
      ⟨500, .errorJson internalErrorMsg, false⟩ :=
  ⟨(claim7_amended "key" (by decide) (.thrown "x")).1
      ⟨some "AAAA", none, some "lofi"⟩ (Or.inr (Or.inl rfl)),
   (claim7_amended "key" (by decide) (.thrown "x")).2⟩

/-- Claim C10: for every POST request that passes the presence check, the
handler issues exactly one model call whose instruction text is the lofi
template when style equals lofi and the cutout template for every other
truthy style — template resolution depends only on whether style equals
lofi. -/
theorem claim10_style_dispatch (apiKey b64 mime style : String)
    (hKey : apiKey ≠ "") (hB : b64 ≠ "") (hM : mime ≠ "") (hS : style ≠ "")
    (model : ModelOutcome) :
    (handler "POST" (some apiKey) (.ok ⟨some b64, some mime, some style⟩)
        model).2.modelCalls =
      [⟨"gemini-2.5-flash-image-preview", b64, mime,
        if style = "lofi" then LOFI_PROMPT else CUTOUT_PROMPT⟩] := by
  cases model with
  | thrown msg => simp [handler, truthy, hKey, hB, hM, hS]
  | result parts =>
      cases hscan : scanParts parts <;>
        simp [handler, truthy, hKey, hB, hM, hS, hscan]

theorem claim10_witness :
    (handler "POST" (some "key") (.ok ⟨some "AAAA", some "image/png", some "lofi"⟩)
        (.result [])).2.modelCalls =
      [⟨"gemini-2.5-flash-image-preview", "AAAA", "image/png",
        if "lofi" = "lofi" then LOFI_PROMPT else CUTOUT_PROMPT⟩] :=
  claim10_style_dispatch "key" "AAAA" "image/png" "lofi"
    (by decide) (by decide) (by decide) (by decide) (.result [])
